import Mathlib

/-!
Verification development for the chatgpt Telegram-bot repository.

The Python sources embedded here are `telegram_bot.py` (access policy,
conversation-continuity cache, ChatGPT relay, reset handler) and
`bot/plugins/deepl.py` (the DeepL translation plugin constructor and its
endpoint selection).  External collaborators (the `expiringdict` library,
`uuid.uuid4`, and asyncChatGPT's `reset_chat`) are modelled from the
specification, as noted on their definitions.
-/

/-- Telegram chat kinds, mirroring `telegram.constants.ChatType`. -/
inductive ChatType where
  | PRIVATE
  | GROUP
  | SUPERGROUP
  | CHANNEL
deriving DecidableEq, BEq, Repr

/-- The access-control part of the bot configuration dictionary:
`config["allowed_user_ids"]` and `config["allowed_chat_ids"]`, each either
the wildcard `"*"` or a comma-separated list of ids. -/
structure BotConfig where
  allowed_user_ids : String
  allowed_chat_ids : String
deriving DecidableEq, Repr

/-- `ChatGPT3TelegramBot.is_allowed`, from `telegram_bot.py`.  The update is
represented by the fields the method reads: `update.message.from_user.id`,
`update.message.chat.id` and `update.message.chat.type`.  Python's
`str.split(",")` is `String.splitOn ","`, `str(i)` on an `int` is `toString`,
and `|` on two `bool`s is boolean or. -/
def is_allowed (config : BotConfig) (from_user_id : Int) (chat_id : Int)
    (chat_type : ChatType) : Bool :=
  if config.allowed_user_ids == "*" && chat_type == ChatType.PRIVATE then
    true
  else if config.allowed_chat_ids == "*" && chat_type == ChatType.GROUP then
    true
  else
    let is_allow_user :=
      (config.allowed_user_ids.splitOn ",").contains (toString from_user_id)
        && chat_type == ChatType.PRIVATE
    let is_allow_group :=
      (config.allowed_chat_ids.splitOn ",").contains (toString chat_id)
        && (chat_type == ChatType.GROUP || chat_type == ChatType.SUPERGROUP)
    is_allow_group || is_allow_user

/-- The access rule exactly as the specification words it, as ordered rules:
(1) wildcard users and a private chat allow; (2) wildcard chats and a group
chat allow; (3) else requester id in the explicit allowed-user set and a
private chat allow; (4) else chat id in the explicit allowed-chat set and a
group-or-supergroup chat allow; (5) otherwise deny. -/
def is_allowed_spec (config : BotConfig) (from_user_id : Int) (chat_id : Int)
    (chat_type : ChatType) : Bool :=
  if config.allowed_user_ids == "*" && chat_type == ChatType.PRIVATE then
    true
  else if config.allowed_chat_ids == "*" && chat_type == ChatType.GROUP then
    true
  else if (config.allowed_user_ids.splitOn ",").contains (toString from_user_id)
      && chat_type == ChatType.PRIVATE then
    true
  else if (config.allowed_chat_ids.splitOn ",").contains (toString chat_id)
      && (chat_type == ChatType.GROUP || chat_type == ChatType.SUPERGROUP) then
    true
  else
    false

/-- A cached continuity pair: `(conversation_id, previous_convo_id)` as
stored in `prev_conv_id_cache` (`user => (conversation_id, previous_convo_id)`). -/
abbrev ConvEntry := Option String × String

/-- One stored cache slot: key, value and the time it was (re)written. -/
structure CacheSlot where
  key : Int
  value : ConvEntry
  setTime : Nat
deriving DecidableEq, Repr

/-- Modelled from the spec: the `expiringdict.ExpiringDict` library (an
external collaborator, not in the repository sources) is a bounded
associative store whose entries expire once their age exceeds
`maxAgeSeconds`, holding at most `maxLen` entries, eviction dropping the
least-recently-written entry.  Slots are kept oldest-first; the clock is an
explicit `now` argument. -/
structure ExpiringDict where
  maxLen : Nat
  maxAgeSeconds : Nat
  items : List CacheSlot
deriving DecidableEq, Repr

/-- A slot is live at `now` when its age does not exceed the time-to-live
(the spec: "an entry is considered absent once its age exceeds a fixed
duration"). -/
def ExpiringDict.liveAt (d : ExpiringDict) (now : Nat) (s : CacheSlot) : Bool :=
  decide (now - s.setTime ≤ d.maxAgeSeconds)

/-- Lazy lookup: the value stored under `k`, provided its slot is live at
`now`; expiry is decided here, at access time. -/
def ExpiringDict.getEntry (d : ExpiringDict) (now : Nat) (k : Int) :
    Option ConvEntry :=
  (d.items.find? (fun s => s.key == k && d.liveAt now s)).map (fun s => s.value)

/-- Store `v` under `k` at time `now`: any slot for `k` is replaced, and when
the store would exceed `maxLen` entries the oldest slots are evicted. -/
def ExpiringDict.set (d : ExpiringDict) (now : Nat) (k : Int) (v : ConvEntry) :
    ExpiringDict :=
  let rest := d.items.filter (fun s => s.key != k)
  let kept := if d.maxLen ≤ rest.length then
      rest.drop (rest.length + 1 - d.maxLen)
    else
      rest
  { d with items := kept ++ [⟨k, v, now⟩] }

/-- `MAX_SESSION_NUM` from `telegram_bot.py`. -/
def MAX_SESSION_NUM : Nat := 1000

/-- `MAX_AGE_SECONDS` from `telegram_bot.py`. -/
def MAX_AGE_SECONDS : Nat := 1800

/-- `prev_conv_id_cache` as it is constructed at import time:
`ExpiringDict(max_len=MAX_SESSION_NUM, max_age_seconds=MAX_AGE_SECONDS)`,
initially empty. -/
def prev_conv_id_cache : ExpiringDict :=
  { maxLen := MAX_SESSION_NUM, maxAgeSeconds := MAX_AGE_SECONDS, items := [] }

/-- Modelled from the spec: `uuid.uuid4()` yields a freshly generated random
token on every call.  It is modelled as a deterministic stream `gen` read at
an ever-increasing counter; distinctness of distinct draws is assumed where
a claim needs it. -/
structure UuidGen where
  counter : Nat
  gen : Nat → String

/-- `generate_uuid` from `telegram_bot.py`: draw the next token from the
stream. -/
def generate_uuid (g : UuidGen) : String × UuidGen :=
  (g.gen g.counter, ⟨g.counter + 1, g.gen⟩)

/-- `get_prev_conv_id` from `telegram_bot.py`: if `user` has no live cache
entry, store `(None, generate_uuid())` for it; return the entry now cached
for `user`.  (After the store, the immediate re-read the Python performs
returns exactly the pair just written, so the model returns it directly.) -/
def get_prev_conv_id (d : ExpiringDict) (g : UuidGen) (now : Nat) (user : Int) :
    ConvEntry × ExpiringDict × UuidGen :=
  match d.getEntry now user with
  | some entry => (entry, d, g)
  | none =>
      let drawn := generate_uuid g
      ((none, drawn.1), d.set now user (none, drawn.1), drawn.2)

/-- `set_prev_conv_id` from `telegram_bot.py`:
`prev_conv_id_cache[user] = (conversation_id, prev_conv_id)`. -/
def set_prev_conv_id (d : ExpiringDict) (now : Nat) (user : Int)
    (conversation_id : Option String) (prev_conv_id : String) : ExpiringDict :=
  d.set now user (conversation_id, prev_conv_id)

/-- A successful ChatGPT backend response: the fields `get_chatgpt_response`
reads from the dictionary returned by `gpt3_bot.get_chat_response`. -/
structure ChatResponse where
  message : String
  conversation_id : String
  parent_id : String
deriving DecidableEq, Repr

/-- The backend call as `get_chatgpt_response` performs it: the bot's
`conversation_id` and `parent_id` attributes are set from the cached
continuity pair, then `get_chat_response(message)` is awaited.  A raised
exception is an `Except.error` carrying its text. -/
abbrev Backend := Option String → String → String → Except String ChatResponse

/-- The fixed fallback text returned by `get_chatgpt_response` on any
exception. -/
def fallback_message : String :=
  "I'm having some trouble talking to you, please try again later."

/-- `ChatGPT3TelegramBot.get_chatgpt_response` from `telegram_bot.py`:
fetch the continuity pair via `get_prev_conv_id`, call the backend with it,
on success persist the returned continuity tokens via `set_prev_conv_id`
and return the response message; on any exception return the fixed fallback
message, leaving the cache as the lookup left it. -/
def get_chatgpt_response (backend : Backend) (d : ExpiringDict) (g : UuidGen)
    (now : Nat) (user_id : Int) (message : String) :
    String × ExpiringDict × UuidGen :=
  let looked := get_prev_conv_id d g now user_id
  match backend looked.1.1 looked.1.2 message with
  | Except.ok response =>
      (response.message,
       set_prev_conv_id looked.2.1 now user_id (some response.conversation_id)
         response.parent_id,
       looked.2.2)
  | Except.error _ => (fallback_message, looked.2.1, looked.2.2)

/-- The GPT-3 bot's own session state (conversation and parent ids held on
the `gpt3_bot` object, distinct from the continuity cache). -/
structure GPT3Session where
  conversation_id : Option String
  parent_id : String
deriving DecidableEq, Repr

/-- Modelled from the spec: asyncChatGPT's `reset_chat` (an external
collaborator, not in the repository sources) clears the backend's own
session state, starting a fresh thread. -/
def reset_chat (fresh : String) (_s : GPT3Session) : GPT3Session :=
  { conversation_id := none, parent_id := fresh }

/-- The bot-process state the `/reset` handler can touch: the backend
session and the continuity cache. -/
structure BotState where
  session : GPT3Session
  cache : ExpiringDict
deriving DecidableEq, Repr

/-- `ChatGPT3TelegramBot.reset` from `telegram_bot.py`: if the sender is not
allowed, only the disallowed message is sent and nothing changes; otherwise
`gpt3_bot.reset_chat()` is called.  The continuity cache is not touched on
either path. -/
def reset (config : BotConfig) (from_user_id : Int) (chat_id : Int)
    (chat_type : ChatType) (fresh : String) (st : BotState) : BotState :=
  if is_allowed config from_user_id chat_id chat_type then
    { st with session := reset_chat fresh st.session }
  else
    st

/-- One operation against the continuity cache, for reasoning about
arbitrary interleavings of lookups and stores. -/
inductive CacheOp where
  | getOrCreate (user : Int) (now : Nat)
  | put (user : Int) (conversation_id : Option String) (prev_conv_id : String)
      (now : Nat)
deriving DecidableEq, Repr

/-- Run one cache operation on the (cache, uuid-stream) state. -/
def applyOp (st : ExpiringDict × UuidGen) (op : CacheOp) :
    ExpiringDict × UuidGen :=
  match op with
  | CacheOp.getOrCreate user now =>
      let r := get_prev_conv_id st.1 st.2 now user
      (r.2.1, r.2.2)
  | CacheOp.put user conversation_id prev_conv_id now =>
      (set_prev_conv_id st.1 now user conversation_id prev_conv_id, st.2)

/-- Run a sequence of cache operations. -/
def runOps (st : ExpiringDict × UuidGen) (ops : List CacheOp) :
    ExpiringDict × UuidGen :=
  ops.foldl applyOp st

/-- The DeepL plugin object: the two attributes `__init__` stores. -/
structure DeeplTranslatePlugin where
  api_key : String
  api_pro : Bool
deriving DecidableEq, Repr

/-- Python truthiness of `os.getenv(...)`: falsy when the variable is unset
or empty. -/
def envFalsy : Option String → Bool
  | none => true
  | some s => s.isEmpty

/-- Python's `str.lower()`, character by character (agrees with ASCII
lowering on the values the plugin compares against). -/
def pyLower (s : String) : String := String.mk (s.data.map Char.toLower)

/-- `DeeplTranslatePlugin.__init__` from `bot/plugins/deepl.py`, over the
two environment variables it reads.  `deepl_api_pro` is
`os.getenv('DEEPL_API_PRO', 'false').lower() == 'true'`; construction raises
`ValueError` when `not deepl_api_key or not deepl_api_pro`. -/
def deepl_init (env_api_key : Option String) (env_api_pro : Option String) :
    Except String DeeplTranslatePlugin :=
  let deepl_api_key := env_api_key
  let deepl_api_pro := pyLower (env_api_pro.getD "false") == "true"
  if envFalsy deepl_api_key || !deepl_api_pro then
    Except.error
      "DEEPL_API_KEY and DEEPL_API_PLAN environment variable must be set to use DeepL Plugin"
  else
    Except.ok { api_key := deepl_api_key.getD "", api_pro := deepl_api_pro }

/-- The endpoint URL `DeeplTranslatePlugin.execute` posts to: selected only
by the configured tier flag. -/
def deepl_request_url (p : DeeplTranslatePlugin) : String :=
  if p.api_pro then
    "https://api.deepl.com/v2/translate"
  else
    "https://api-free.deepl.com/v2/translate"

/-- A concrete uuid stream for instantiating theorems: decimal numerals,
pairwise distinct. -/
def sampleGen : UuidGen := ⟨0, fun n => toString n⟩

/-- A concrete cache holding one live entry for user 1, written at time 5. -/
def sampleDict : ExpiringDict :=
  { maxLen := MAX_SESSION_NUM, maxAgeSeconds := MAX_AGE_SECONDS,
    items := [⟨1, (some "c0", "p0"), 5⟩] }

/-- A concrete cache holding one entry for user 1 written at time 0, expired
when read at time 1801. -/
def expiredDict : ExpiringDict :=
  { maxLen := MAX_SESSION_NUM, maxAgeSeconds := MAX_AGE_SECONDS,
    items := [⟨1, (some "c0", "p0"), 0⟩] }

/-- A backend that always raises. -/
def failingBackend : Backend := fun _ _ _ => Except.error "backend failure"

/-- The concrete backend reply used to instantiate theorems. -/
def sampleResp : ChatResponse :=
  { message := "hi!", conversation_id := "c1", parent_id := "m1" }

/-- A backend that always answers `("hi!", "c1", "m1")`. -/
def okBackend : Backend := fun _ _ _ => Except.ok sampleResp

/-- C1: `is_allowed` decides access exactly according to the spec's ordered
rules (wildcard users only cover private chats, wildcard chats only cover
group chats, explicit lists match exactly, everything else is denied). -/
theorem c1_is_allowed_follows_ordered_rules (config : BotConfig)
    (from_user_id : Int) (chat_id : Int) (chat_type : ChatType) :
    is_allowed config from_user_id chat_id chat_type
      = is_allowed_spec config from_user_id chat_id chat_type := by
  unfold is_allowed is_allowed_spec
  cases h1 : (config.allowed_user_ids == "*" && chat_type == ChatType.PRIVATE) <;>
    cases h2 : (config.allowed_chat_ids == "*" && chat_type == ChatType.GROUP) <;>
      simp only [h1, h2, if_true, if_false, Bool.false_eq_true, ite_true, ite_false] <;>
        cases hu : ((config.allowed_user_ids.splitOn ",").contains (toString from_user_id)
            && chat_type == ChatType.PRIVATE) <;>
          cases hg : ((config.allowed_chat_ids.splitOn ",").contains (toString chat_id)
              && (chat_type == ChatType.GROUP || chat_type == ChatType.SUPERGROUP)) <;>
            simp [hu, hg]

/-- `find?` skips a prefix on which the predicate is everywhere false. -/
theorem find?_append_of_forall_false {α : Type} (p : α → Bool) (l1 l2 : List α)
    (h : ∀ a ∈ l1, p a = false) : (l1 ++ l2).find? p = l2.find? p := by
  induction l1 with
  | nil => rfl
  | cons a t ih =>
      have ha : p a = false := h a (List.mem_cons_self a t)
      simpa [List.find?, ha] using ih (fun b hb => h b (List.mem_cons_of_mem a hb))

/-- Every slot kept by `set` beside the freshly written one was already in
the store. -/
theorem mem_of_mem_set {d : ExpiringDict} {now : Nat} {k : Int} {v : ConvEntry}
    {s : CacheSlot} (hs : s ∈ (d.set now k v).items) :
    s = ⟨k, v, now⟩ ∨ s ∈ d.items := by
  unfold ExpiringDict.set at hs
  simp only [List.mem_append, List.mem_singleton] at hs
  rcases hs with hs | hs
  · right
    have hrest : s ∈ d.items.filter (fun t => t.key != k) := by
      by_cases hc : d.maxLen ≤ (d.items.filter (fun t => t.key != k)).length
      · simp only [hc, if_true] at hs
        exact List.mem_of_mem_drop hs
      · simpa [hc] using hs
    exact (List.mem_filter.mp hrest).1
  · left
    exact hs

/-- The slots a `set` produces: some prefix whose keys all differ from the
written key, then the freshly written slot. -/
theorem set_items_split (d : ExpiringDict) (now : Nat) (k : Int) (v : ConvEntry) :
    ∃ pre, (d.set now k v).items = pre ++ [⟨k, v, now⟩]
      ∧ ∀ s ∈ pre, s.key ≠ k := by
  unfold ExpiringDict.set
  refine ⟨_, rfl, ?_⟩
  intro s hs
  have hmemf : s ∈ d.items.filter (fun u => u.key != k) := by
    by_cases hc : d.maxLen ≤ (d.items.filter (fun u => u.key != k)).length
    · simp only [hc, if_true] at hs
      exact List.mem_of_mem_drop hs
    · simpa [hc] using hs
  have := (List.mem_filter.mp hmemf).2
  simpa using this

/-- Writing a key and reading it back at the same instant yields the written
value. -/
theorem getEntry_set_self (d : ExpiringDict) (now : Nat) (k : Int)
    (v : ConvEntry) : (d.set now k v).getEntry now k = some v := by
  obtain ⟨pre, he, hpre⟩ := set_items_split d now k v
  unfold ExpiringDict.getEntry
  rw [he, find?_append_of_forall_false]
  · simp [ExpiringDict.liveAt]
  · intro s hs
    have : (s.key == k) = false := by
      simpa using hpre s hs
    simp [this]

/-- A `set` never makes another, absent key present. -/
theorem getEntry_set_ne {d : ExpiringDict} {now : Nat} {k k2 : Int}
    {v : ConvEntry} (hne : k2 ≠ k) (h : d.getEntry now k2 = none) :
    (d.set now k v).getEntry now k2 = none := by
  unfold ExpiringDict.getEntry at h ⊢
  rw [Option.map_eq_none'] at h ⊢
  rw [List.find?_eq_none] at h ⊢
  intro s hs
  rcases mem_of_mem_set hs with rfl | hmem
  · simp [Ne.symm hne]
  · have := h s hmem
    simpa [ExpiringDict.liveAt, ExpiringDict.set] using this

/-- C6: `put` then an immediate `get_or_create` for the same user returns
exactly the written pair, and leaves the cache and the uuid stream as they
were after the `put`. -/
theorem c6_put_then_get_or_create (d : ExpiringDict) (g : UuidGen) (now : Nat)
    (user : Int) (c : Option String) (p : String) :
    get_prev_conv_id (set_prev_conv_id d now user c p) g now user
      = ((c, p), set_prev_conv_id d now user c p, g) := by
  unfold get_prev_conv_id set_prev_conv_id
  simp [getEntry_set_self]

/-- C5: for an unseen user, `get_or_create` creates, stores and returns
`(none, fresh-token)` where the token is the next draw of the uuid stream;
for a user with a live entry it returns that entry and changes nothing; and
two first-time calls for two different users consume successive draws, so
they return different tokens whenever the draws differ (which uuid4
guarantees up to collision). -/
theorem c5_get_or_create_fresh_and_existing (d : ExpiringDict) (g : UuidGen)
    (now : Nat) (u v : Int) :
    (∀ e, d.getEntry now u = some e → get_prev_conv_id d g now u = (e, d, g))
    ∧ (d.getEntry now u = none →
        get_prev_conv_id d g now u
          = ((none, g.gen g.counter),
             d.set now u (none, g.gen g.counter), ⟨g.counter + 1, g.gen⟩)
        ∧ (d.set now u (none, g.gen g.counter)).getEntry now u
            = some (none, g.gen g.counter)
        ∧ (v ≠ u → d.getEntry now v = none →
            g.gen g.counter ≠ g.gen (g.counter + 1) →
            (get_prev_conv_id (get_prev_conv_id d g now u).2.1
                (get_prev_conv_id d g now u).2.2 now v).1.2
              ≠ (get_prev_conv_id d g now u).1.2)) := by
  constructor
  · intro e he
    unfold get_prev_conv_id
    simp [he]
  · intro hnone
    have hfirst : get_prev_conv_id d g now u
        = ((none, g.gen g.counter),
           d.set now u (none, g.gen g.counter), ⟨g.counter + 1, g.gen⟩) := by
      unfold get_prev_conv_id generate_uuid
      simp [hnone]
    refine ⟨hfirst, getEntry_set_self d now u (none, g.gen g.counter), ?_⟩
    intro hvu hvnone hgen
    have hvnone2 : (d.set now u (none, g.gen g.counter)).getEntry now v = none :=
      getEntry_set_ne hvu hvnone
    rw [hfirst]
    unfold get_prev_conv_id generate_uuid
    simp [hvnone2]
    exact fun h => hgen h.symm

/-- Concrete witness for C5: a live entry is returned unchanged, and two
first-time users get the distinct tokens "0" and "1". -/
theorem c5_witness :
    sampleDict.getEntry 5 1 = some (some "c0", "p0")
    ∧ get_prev_conv_id sampleDict sampleGen 5 1
        = ((some "c0", "p0"), sampleDict, sampleGen)
    ∧ prev_conv_id_cache.getEntry 0 1 = none
    ∧ (get_prev_conv_id (get_prev_conv_id prev_conv_id_cache sampleGen 0 1).2.1
          (get_prev_conv_id prev_conv_id_cache sampleGen 0 1).2.2 0 2).1.2
        ≠ (get_prev_conv_id prev_conv_id_cache sampleGen 0 1).1.2 := by
  refine ⟨by decide, ?_, by decide, ?_⟩
  · exact (c5_get_or_create_fresh_and_existing sampleDict sampleGen 5 1 2).1
      (some "c0", "p0") (by decide)
  · exact (((c5_get_or_create_fresh_and_existing prev_conv_id_cache sampleGen
      0 1 2).2 (by decide)).2.2) (by decide) (by decide) (by decide)

/-- C7: once every stored slot for a user is older than the time-to-live,
the entry is treated as absent at the next access: the lazy lookup misses,
and `get_or_create` re-creates the entry with `none` and a freshly drawn
token. -/
theorem c7_expired_entry_recreated (d : ExpiringDict) (g : UuidGen) (now : Nat)
    (user : Int)
    (hexp : ∀ s ∈ d.items, s.key = user → d.maxAgeSeconds < now - s.setTime) :
    d.getEntry now user = none
    ∧ get_prev_conv_id d g now user
        = ((none, g.gen g.counter),
           d.set now user (none, g.gen g.counter), ⟨g.counter + 1, g.gen⟩) := by
  have hnone : d.getEntry now user = none := by
    unfold ExpiringDict.getEntry
    rw [Option.map_eq_none', List.find?_eq_none]
    intro s hs
    by_cases hk : s.key = user
    · have hage := hexp s hs hk
      simp [ExpiringDict.liveAt, hk]
      omega
    · simp [hk]
  refine ⟨hnone, ?_⟩
  unfold get_prev_conv_id generate_uuid
  simp [hnone]

/-- Concrete witness for C7: an entry written at time 0 with the default
1800-second time-to-live is re-created on access at time 1801. -/
theorem c7_witness :
    (∀ s ∈ expiredDict.items, s.key = 1 →
      expiredDict.maxAgeSeconds < 1801 - s.setTime)
    ∧ expiredDict.getEntry 1801 1 = none
    ∧ get_prev_conv_id expiredDict sampleGen 1801 1
        = ((none, sampleGen.gen sampleGen.counter),
           expiredDict.set 1801 1 (none, sampleGen.gen sampleGen.counter),
           ⟨sampleGen.counter + 1, sampleGen.gen⟩) := by
  refine ⟨by decide, ?_⟩
  exact c7_expired_entry_recreated expiredDict sampleGen 1801 1 (by decide)

/-- `set` keeps the configured capacity field. -/
theorem set_maxLen (d : ExpiringDict) (now : Nat) (k : Int) (v : ConvEntry) :
    (d.set now k v).maxLen = d.maxLen := rfl

/-- `set` never grows the store past `maxLen`, provided the capacity is at
least one and the store was within bounds. -/
theorem set_length_le {d : ExpiringDict} (h1 : 1 ≤ d.maxLen)
    (hle : d.items.length ≤ d.maxLen) (now : Nat) (k : Int) (v : ConvEntry) :
    (d.set now k v).items.length ≤ d.maxLen := by
  unfold ExpiringDict.set
  have hf : (d.items.filter (fun s => s.key != k)).length ≤ d.items.length :=
    List.length_filter_le _ _
  by_cases hc : d.maxLen ≤ (d.items.filter (fun s => s.key != k)).length
  · simp only [hc, if_true, List.length_append, List.length_drop,
      List.length_singleton]
    omega
  · simp only [hc, if_false, List.length_append, List.length_singleton]
    omega

/-- One cache operation preserves the capacity bound and the configured
capacity. -/
theorem applyOp_preserves_bound (st : ExpiringDict × UuidGen) (op : CacheOp)
    (h1 : 1 ≤ st.1.maxLen) (hle : st.1.items.length ≤ st.1.maxLen) :
    (applyOp st op).1.maxLen = st.1.maxLen
    ∧ (applyOp st op).1.items.length ≤ st.1.maxLen := by
  cases op with
  | getOrCreate user now =>
      unfold applyOp get_prev_conv_id
      cases hget : st.1.getEntry now user with
      | some e => simpa [hget] using hle
      | none =>
          simp only [hget]
          exact ⟨set_maxLen _ _ _ _, set_length_le h1 hle _ _ _⟩
  | put user c p now =>
      unfold applyOp set_prev_conv_id
      exact ⟨set_maxLen _ _ _ _, set_length_le h1 hle _ _ _⟩

/-- Any operation sequence preserves the capacity bound. -/
theorem runOps_preserves_bound (ops : List CacheOp)
    (st : ExpiringDict × UuidGen) (h1 : 1 ≤ st.1.maxLen)
    (hle : st.1.items.length ≤ st.1.maxLen) :
    (runOps st ops).1.maxLen = st.1.maxLen
    ∧ (runOps st ops).1.items.length ≤ st.1.maxLen := by
  induction ops generalizing st with
  | nil => exact ⟨rfl, hle⟩
  | cons op rest ih =>
      have hstep := applyOp_preserves_bound st op h1 hle
      have hrec := ih (applyOp st op)
        (by rw [hstep.1]; exact h1) (by rw [hstep.1]; exact hstep.2)
      exact ⟨by simpa [runOps, List.foldl_cons, hstep.1] using hrec.1,
        by simpa [runOps, List.foldl_cons, hstep.1] using hrec.2⟩

/-- C8: starting from the process's initial cache, no sequence of
get-or-create and put operations ever leaves more than `MAX_SESSION_NUM`
stored entries; and writing a fresh key into a full store evicts at least
one existing slot (the total does not grow although the new slot is
present). -/
theorem c8_capacity_bound (ops : List CacheOp) (g : UuidGen) :
    (runOps (prev_conv_id_cache, g) ops).1.items.length ≤ MAX_SESSION_NUM
    ∧ (∀ (d : ExpiringDict) (now : Nat) (k : Int) (v : ConvEntry),
        1 ≤ d.maxLen → d.maxLen ≤ d.items.length →
        (∀ s ∈ d.items, s.key ≠ k) →
        (d.set now k v).items.length ≤ d.items.length
        ∧ (⟨k, v, now⟩ : CacheSlot) ∈ (d.set now k v).items) := by
  constructor
  · have := runOps_preserves_bound ops (prev_conv_id_cache, g)
      (by norm_num [prev_conv_id_cache, MAX_SESSION_NUM])
      (by simp [prev_conv_id_cache])
    simpa [prev_conv_id_cache] using this.2
  · intro d now k v h1 hfull hfresh
    have hkeep : d.items.filter (fun s => s.key != k) = d.items := by
      apply List.filter_eq_self.mpr
      intro s hs
      simpa using hfresh s hs
    constructor
    · unfold ExpiringDict.set
      rw [hkeep]
      have hc : d.maxLen ≤ d.items.length := hfull
      simp only [hc, if_true, List.length_append, List.length_drop,
        List.length_singleton]
      omega
    · unfold ExpiringDict.set
      simp

/-- Concrete witness for C8: three operations on the initial cache stay
within bounds, and writing key 2 into a full one-slot store of capacity one
evicts the slot for key 1. -/
theorem c8_witness :
    (runOps (prev_conv_id_cache, sampleGen)
        [CacheOp.getOrCreate 1 0, CacheOp.put 1 (some "c1") "m1" 3,
         CacheOp.getOrCreate 2 4]).1.items.length ≤ MAX_SESSION_NUM
    ∧ (1 : Nat) ≤ 1 ∧ (∀ s ∈ [(⟨1, (none, "a"), 0⟩ : CacheSlot)], s.key ≠ 2)
    ∧ (ExpiringDict.set ⟨1, 1800, [⟨1, (none, "a"), 0⟩]⟩ 7 2
        (none, "b")).items.length ≤ 1 := by
  refine ⟨(c8_capacity_bound _ sampleGen).1, by decide, by decide, ?_⟩
  have := ((c8_capacity_bound [] sampleGen).2
    ⟨1, 1800, [⟨1, (none, "a"), 0⟩]⟩ 7 2 (none, "b")
    (by decide) (by decide) (by decide)).1
  simpa using this

/-- C2: whenever the backend call raises, `get_chatgpt_response` returns the
fixed fallback message; the model is a total function, so no backend failure
ever propagates to the caller. -/
theorem c2_backend_failure_gives_fallback (backend : Backend)
    (d : ExpiringDict) (g : UuidGen) (now : Nat) (user_id : Int)
    (message : String) (e : String)
    (herr : backend (get_prev_conv_id d g now user_id).1.1
        (get_prev_conv_id d g now user_id).1.2 message = Except.error e) :
    (get_chatgpt_response backend d g now user_id message).1
      = fallback_message := by
  unfold get_chatgpt_response
  simp only [herr]

/-- Concrete witness for C2: an always-raising backend yields the fallback
message. -/
theorem c2_witness :
    failingBackend (get_prev_conv_id prev_conv_id_cache sampleGen 0 42).1.1
        (get_prev_conv_id prev_conv_id_cache sampleGen 0 42).1.2 "hello"
      = Except.error "backend failure"
    ∧ (get_chatgpt_response failingBackend prev_conv_id_cache sampleGen 0 42
        "hello").1 = fallback_message :=
  ⟨rfl, c2_backend_failure_gives_fallback failingBackend prev_conv_id_cache
    sampleGen 0 42 "hello" "backend failure" rfl⟩

/-- C3: for a user with no live cache entry, the relay calls the backend
with conversation id `none` and the freshly drawn token; when the backend
answers with reply text, conversation id `c` and parent id `p`, the relay
returns the reply text and the cache afterwards holds exactly `(c, p)` for
that user. -/
theorem c3_first_message_success (backend : Backend) (d : ExpiringDict)
    (g : UuidGen) (now : Nat) (user_id : Int) (message : String)
    (resp : ChatResponse)
    (hnone : d.getEntry now user_id = none)
    (hok : backend none (g.gen g.counter) message = Except.ok resp) :
    (get_chatgpt_response backend d g now user_id message).1 = resp.message
    ∧ (get_chatgpt_response backend d g now user_id message).2.1.getEntry now
        user_id = some (some resp.conversation_id, resp.parent_id) := by
  unfold get_chatgpt_response get_prev_conv_id generate_uuid
  simp only [hnone]
  rw [hok]
  exact ⟨rfl, getEntry_set_self _ _ _ _⟩

/-- Concrete witness for C3: user 42's first message "hello" with a backend
answering `("hi!", "c1", "m1")`. -/
theorem c3_witness :
    prev_conv_id_cache.getEntry 0 42 = none
    ∧ okBackend none (sampleGen.gen sampleGen.counter) "hello"
        = Except.ok sampleResp
    ∧ (get_chatgpt_response okBackend prev_conv_id_cache sampleGen 0 42
        "hello").1 = sampleResp.message
    ∧ (get_chatgpt_response okBackend prev_conv_id_cache sampleGen 0 42
        "hello").2.1.getEntry 0 42
        = some (some sampleResp.conversation_id, sampleResp.parent_id) := by
  refine ⟨rfl, rfl, ?_⟩
  exact c3_first_message_success okBackend prev_conv_id_cache sampleGen 0 42
    "hello" sampleResp rfl rfl

/-- C10: the error path performs no put.  For a user with a live entry a
backend failure returns the state exactly unchanged; for an unseen user the
fresh `(none, token)` entry written by the lookup survives the failure, and
a retry's lookup returns that same token. -/
theorem c10_failure_cache_frame (backend : Backend) (d : ExpiringDict)
    (g : UuidGen) (now : Nat) (user_id : Int) (message : String) (e : String) :
    (∀ entry, d.getEntry now user_id = some entry →
      backend entry.1 entry.2 message = Except.error e →
      get_chatgpt_response backend d g now user_id message
        = (fallback_message, d, g))
    ∧ (d.getEntry now user_id = none →
        backend none (g.gen g.counter) message = Except.error e →
        get_chatgpt_response backend d g now user_id message
          = (fallback_message,
             d.set now user_id (none, g.gen g.counter),
             ⟨g.counter + 1, g.gen⟩)
        ∧ get_prev_conv_id (d.set now user_id (none, g.gen g.counter))
            ⟨g.counter + 1, g.gen⟩ now user_id
            = ((none, g.gen g.counter),
               d.set now user_id (none, g.gen g.counter),
               ⟨g.counter + 1, g.gen⟩)) := by
  constructor
  · intro entry hsome herr
    unfold get_chatgpt_response get_prev_conv_id
    simp only [hsome]
    rw [herr]
  · intro hnone herr
    constructor
    · unfold get_chatgpt_response get_prev_conv_id generate_uuid
      simp only [hnone]
      rw [herr]
    · unfold get_prev_conv_id
      simp [getEntry_set_self]

/-- Concrete witness for C10: a live entry survives a failure untouched; an
unseen user's freshly created entry survives and its token is reused on
retry. -/
theorem c10_witness :
    sampleDict.getEntry 5 1 = some (some "c0", "p0")
    ∧ failingBackend (some "c0") "p0" "hello" = Except.error "backend failure"
    ∧ get_chatgpt_response failingBackend sampleDict sampleGen 5 1 "hello"
        = (fallback_message, sampleDict, sampleGen)
    ∧ prev_conv_id_cache.getEntry 0 42 = none
    ∧ get_chatgpt_response failingBackend prev_conv_id_cache sampleGen 0 42
          "hello"
        = (fallback_message,
           prev_conv_id_cache.set 0 42 (none, sampleGen.gen sampleGen.counter),
           ⟨sampleGen.counter + 1, sampleGen.gen⟩)
    ∧ get_prev_conv_id
          (prev_conv_id_cache.set 0 42 (none, sampleGen.gen sampleGen.counter))
          ⟨sampleGen.counter + 1, sampleGen.gen⟩ 0 42
        = ((none, sampleGen.gen sampleGen.counter),
           prev_conv_id_cache.set 0 42 (none, sampleGen.gen sampleGen.counter),
           ⟨sampleGen.counter + 1, sampleGen.gen⟩) := by
  refine ⟨by decide, rfl, ?_, rfl, ?_, ?_⟩
  · exact (c10_failure_cache_frame failingBackend sampleDict sampleGen 5 1
      "hello" "backend failure").1 (some "c0", "p0") (by decide) rfl
  · exact ((c10_failure_cache_frame failingBackend prev_conv_id_cache
      sampleGen 0 42 "hello" "backend failure").2 rfl rfl).1
  · exact ((c10_failure_cache_frame failingBackend prev_conv_id_cache
      sampleGen 0 42 "hello" "backend failure").2 rfl rfl).2

/-- C9: handling `/reset` never touches the continuity cache: whether or not
the sender is allowed, the cache, and every user's entry in it, is exactly
what it was before the command. -/
theorem c9_reset_preserves_cache (config : BotConfig) (from_user_id : Int)
    (chat_id : Int) (chat_type : ChatType) (fresh : String) (st : BotState) :
    (reset config from_user_id chat_id chat_type fresh st).cache = st.cache
    ∧ ∀ (now : Nat) (user : Int),
        (reset config from_user_id chat_id chat_type fresh st).cache.getEntry
            now user
          = st.cache.getEntry now user := by
  have hcache :
      (reset config from_user_id chat_id chat_type fresh st).cache
        = st.cache := by
    unfold reset
    split <;> rfl
  exact ⟨hcache, fun now user => by rw [hcache]⟩

/-- C4: evaluating the DeepL plugin constructor.  With the API key set but
the tier flag unset or "false" (the free tier), construction still raises;
with the key set and the pro flag "true" it succeeds; and the tier flag
only selects which endpoint URL `execute` uses.  The free-tier endpoint is
therefore unreachable: `__init__` rejects every configuration in which
`execute` would pick it. -/
theorem c4_deepl_constructor_eval :
    deepl_init (some "my-key") none
      = Except.error "DEEPL_API_KEY and DEEPL_API_PLAN environment variable must be set to use DeepL Plugin"
    ∧ deepl_init (some "my-key") (some "false")
      = Except.error "DEEPL_API_KEY and DEEPL_API_PLAN environment variable must be set to use DeepL Plugin"
    ∧ deepl_init none (some "true")
      = Except.error "DEEPL_API_KEY and DEEPL_API_PLAN environment variable must be set to use DeepL Plugin"
    ∧ deepl_init (some "my-key") (some "true")
      = Except.ok { api_key := "my-key", api_pro := true }
    ∧ deepl_request_url { api_key := "my-key", api_pro := true }
      = "https://api.deepl.com/v2/translate"
    ∧ deepl_request_url { api_key := "my-key", api_pro := false }
      = "https://api-free.deepl.com/v2/translate" := by
  exact ⟨rfl, rfl, rfl, rfl, rfl, rfl⟩
